import Mathlib

/-!
Shallow embedding of the Oracle API bridge's query-execution core
(module `asd_api/views.py`: classes `BaseView`, `QueryView`, `DataTableView`),
together with theorems checking the specification's claims about it.

Conventions of the embedding:
* Python strings are Lean `String`s; positional character tests are done on
  `String.toList` and characters are compared through their code points
  (`Char.toNat`), which agrees with Python's character equality.
* Python dicts that arrive in request bodies are modelled by association
  lists (`List (String × _)`) in insertion order, matching Python's
  insertion-ordered dict iteration.
* Fallible Python code (raising exceptions) is modelled with `Except`.
* The external driver module `oracledb` is modelled by a finite list of its
  type attributes and by the `DbModel` structure, which answers queries and
  fills OUT variables after a procedure call.
-/

/-- A database cell value as delivered by the driver (scalars only; what a
row of a fetched result set contains). -/
inductive Cell where
  | cNull
  | cInt (n : Int)
  | cStr (s : String)
  | cBool (b : Bool)
deriving DecidableEq, Repr

/-- A value of the request's `params` mapping: a JSON scalar, an OUT
descriptor (a dict with `dir = OUT` and a `type` name), or some other dict
(one whose `dir` entry is absent or not `OUT`). -/
inductive ParamValue where
  | pStr (s : String)
  | pNum (n : Int)
  | pBool (b : Bool)
  | pNull
  | pOut (ty : String)
  | pDictOther
deriving DecidableEq, Repr

/-- The errors `prepare_proc_params` can raise: a `ValidationError` carrying
the name of the offending parameter and the full message built for it, or an
`AttributeError` from looking up an unknown attribute on the driver module. -/
inductive PyError where
  | validationError (param : String) (msg : String)
  | attributeError (attr : String)
deriving DecidableEq, Repr

/-- Stand-in for the text of the `ValueError` raised by a failed
`datetime.strptime`; the exact driver text is irrelevant to the claims. -/
def valueErrText : String := "ValueError"

/-- Message of the `ValidationError` raised when the date branch of
`prepare_proc_params` fails: the f-string
`Ошибка конвертации даты для параметра '{key}': {e}`. -/
def dateConvMsg (key : String) : String :=
  "Ошибка конвертации даты для параметра \x27" ++ key ++ "\x27: " ++ valueErrText

/-- Message of the `ValidationError` raised when the date-time branch of
`prepare_proc_params` fails: the f-string
`Ошибка конвертации даты и времени для параметра '{key}': {e}`. -/
def dtConvMsg (key : String) : String :=
  "Ошибка конвертации даты и времени для параметра \x27" ++ key ++ "\x27: " ++ valueErrText

/-- Numeric value of a digit character (code point minus 48). -/
def dv (c : Char) : Nat := c.toNat - 48

/-- The character class `\d`: code point between 48 (`0`) and 57 (`9`). -/
def isDigP (c : Char) : Prop := 48 ≤ c.toNat ∧ c.toNat ≤ 57

instance (c : Char) : Decidable (isDigP c) := by unfold isDigP; infer_instance

/-- CPython `_strptime` class for `%m`: the regex `1[0-2]|0[1-9]|[1-9]`,
restricted to its two-character alternatives (the one-character alternative
can never complete a match on the strings the caller gates, see
`strptime10L`). Code points: 48 = `0`, 49 = `1`, 50 = `2`, 57 = `9`. -/
def mRegexP (a b : Char) : Prop :=
  (a.toNat = 49 ∧ 48 ≤ b.toNat ∧ b.toNat ≤ 50) ∨
  (a.toNat = 48 ∧ 49 ≤ b.toNat ∧ b.toNat ≤ 57)

instance (a b : Char) : Decidable (mRegexP a b) := by unfold mRegexP; infer_instance

/-- CPython `_strptime` class for `%d`: the regex
`3[01]|[12]\d|0[1-9]|[1-9]| [1-9]`, restricted to its two-character
alternatives; note the last alternative, a blank (code point 32) followed by
a nonzero digit. Code points: 50 = `2`, 51 = `3`. -/
def dRegexP (a b : Char) : Prop :=
  (a.toNat = 51 ∧ (b.toNat = 48 ∨ b.toNat = 49)) ∨
  ((a.toNat = 49 ∨ a.toNat = 50) ∧ isDigP b) ∨
  (a.toNat = 48 ∧ 49 ≤ b.toNat ∧ b.toNat ≤ 57) ∨
  (a.toNat = 32 ∧ 49 ≤ b.toNat ∧ b.toNat ≤ 57)

instance (a b : Char) : Decidable (dRegexP a b) := by unfold dRegexP; infer_instance

/-- CPython `_strptime` class for `%H`: the regex `2[0-3]|[0-1]\d|\d`,
restricted to its two-character alternatives. -/
def hRegexP (a b : Char) : Prop :=
  (a.toNat = 50 ∧ 48 ≤ b.toNat ∧ b.toNat ≤ 51) ∨
  ((a.toNat = 48 ∨ a.toNat = 49) ∧ isDigP b)

instance (a b : Char) : Decidable (hRegexP a b) := by unfold hRegexP; infer_instance

/-- CPython `_strptime` class for `%M` and `%S`: the regex `[0-5]\d|\d`,
restricted to its two-character alternative. Code point 53 = `5`. -/
def msRegexP (a b : Char) : Prop :=
  (48 ≤ a.toNat ∧ a.toNat ≤ 53) ∧ isDigP b

instance (a b : Char) : Decidable (msRegexP a b) := by unfold msRegexP; infer_instance

/-- Day value matched by the `%d` class: a blank-led match (` 9`) denotes the
single digit, otherwise the two digits are read as a decimal number. -/
def dayVal (a b : Char) : Nat := if a.toNat = 32 then dv b else dv a * 10 + dv b

/-- Gregorian leap-year rule used by Python's `datetime`. -/
def isLeapYear (y : Nat) : Bool := y % 4 = 0 && (y % 100 ≠ 0 || y % 400 = 0)

/-- Number of days in a month, as enforced by Python's `datetime` constructor. -/
def daysInMonth (y m : Nat) : Nat :=
  if m = 2 then (if isLeapYear y then 29 else 28)
  else if m = 4 ∨ m = 6 ∨ m = 9 ∨ m = 11 then 30
  else 31

/-- Model of `datetime.strptime(value, '%Y-%m-%d')` on the inputs the caller
admits (exactly 10 characters containing exactly two hyphens).  On that
domain a full regex match forces the split `\d{4}` `-` (2 chars) `-`
(2 chars), so the component classes sit at fixed positions; after the match,
Python's `datetime` constructor enforces year ≥ 1 (`MINYEAR`) and day ≤ days
in month.  Returns the `(year, month, day)` of the resulting `datetime`. -/
def strptime10L (l : List Char) : Option (Nat × Nat × Nat) :=
  match l with
  | [y1, y2, y3, y4, s1, m1, m2, s2, d1, d2] =>
    if isDigP y1 ∧ isDigP y2 ∧ isDigP y3 ∧ isDigP y4 ∧ s1.toNat = 45 ∧
       mRegexP m1 m2 ∧ s2.toNat = 45 ∧ dRegexP d1 d2 then
      let y := dv y1 * 1000 + dv y2 * 100 + dv y3 * 10 + dv y4
      let m := dv m1 * 10 + dv m2
      let d := dayVal d1 d2
      if 1 ≤ y ∧ d ≤ daysInMonth y m then some (y, m, d) else none
    else none
  | _ => none

/-- Model of `datetime.strptime(value, '%Y-%m-%d %H:%M:%S')` on the inputs
the caller admits (exactly 19 characters, exactly two hyphens, exactly two
colons).  The format's literal blank is modelled as exactly one blank
(code point 32); CPython would match any nonempty whitespace run there, a
difference that on the gated domain arises only for inputs containing
consecutive whitespace, which no theorem below touches.  With a single
blank the split is forced to two characters per component. -/
def strptime19L (l : List Char) : Option (Nat × Nat × Nat × Nat × Nat × Nat) :=
  match l with
  | [y1, y2, y3, y4, s1, m1, m2, s2, d1, d2, sp, hh1, hh2, c1, mi1, mi2, c2, ss1, ss2] =>
    if isDigP y1 ∧ isDigP y2 ∧ isDigP y3 ∧ isDigP y4 ∧ s1.toNat = 45 ∧
       mRegexP m1 m2 ∧ s2.toNat = 45 ∧ dRegexP d1 d2 ∧ sp.toNat = 32 ∧
       hRegexP hh1 hh2 ∧ c1.toNat = 58 ∧ msRegexP mi1 mi2 ∧ c2.toNat = 58 ∧
       msRegexP ss1 ss2 then
      let y := dv y1 * 1000 + dv y2 * 100 + dv y3 * 10 + dv y4
      let m := dv m1 * 10 + dv m2
      let d := dayVal d1 d2
      if 1 ≤ y ∧ d ≤ daysInMonth y m then
        some (y, m, d, dv hh1 * 10 + dv hh2, dv mi1 * 10 + dv mi2, dv ss1 * 10 + dv ss2)
      else none
    else none
  | _ => none

/-- Number of occurrences of the character with code point `n` in a
character list; embeds Python's `str.count` of a single character. -/
def countCP (l : List Char) (n : Nat) : Nat := l.countP (fun c => c.toNat == n)

/-- A parameter after binding: an unchanged value, a coerced date, a coerced
date-time, or a driver-level OUT variable of the resolved type. -/
inductive BoundParam where
  | value (v : ParamValue)
  | date (y m d : Nat)
  | datetime (y mo d hh mi ss : Nat)
  | outVar (ty : String)
deriving DecidableEq, Repr

/-- Body of the `else` branch of the loop in `BaseView.prepare_proc_params`
for a string value, on the string's characters `l` (with `orig` the original
value, appended unchanged when no branch matches):

if the value has exactly two hyphens and length 10, parse it with
`%Y-%m-%d`, raising `ValidationError` on failure; else if it has exactly two
hyphens, two colons and length 19, parse it with `%Y-%m-%d %H:%M:%S`,
raising `ValidationError` on failure; else append it unchanged. -/
def coerceStrL (key : String) (orig : ParamValue) (l : List Char) : Except PyError BoundParam :=
  if countCP l 45 = 2 ∧ l.length = 10 then
    match strptime10L l with
    | some (y, m, d) => .ok (.date y m d)
    | none => .error (.validationError key (dateConvMsg key))
  else if countCP l 45 = 2 ∧ countCP l 58 = 2 ∧ l.length = 19 then
    match strptime19L l with
    | some (y, mo, d, hh, mi, ss) => .ok (.datetime y mo d hh mi ss)
    | none => .error (.validationError key (dtConvMsg key))
  else .ok (.value orig)

/-- Per-entry coercion performed by the `else` branch of
`BaseView.prepare_proc_params`: strings go through the shape-gated date and
date-time conversions, every other value is appended unchanged. -/
def coerce_param (key : String) (v : ParamValue) : Except PyError BoundParam :=
  match v with
  | .pStr s => coerceStrL key v s.toList
  | _ => .ok (.value v)

/-- Model of the type attributes exported by the external `oracledb` module
(the names the code's `getattr(oracledb, ...)` and the column-type table may
resolve); a finite stand-in for the driver's attribute namespace. -/
def oracledbAttrs : List String :=
  ["DB_TYPE_VARCHAR", "DB_TYPE_NVARCHAR", "DB_TYPE_NCHAR", "DB_TYPE_CHAR",
   "DB_TYPE_NUMBER", "DB_TYPE_BINARY_FLOAT", "DB_TYPE_BINARY_DOUBLE",
   "DB_TYPE_DATE", "DB_TYPE_TIMESTAMP", "DB_TYPE_TIMESTAMP_LTZ",
   "DB_TYPE_TIMESTAMP_TZ", "DB_TYPE_RAW", "DB_TYPE_LONG", "DB_TYPE_BLOB",
   "DB_TYPE_CLOB", "DB_TYPE_NCLOB", "DB_TYPE_BOOLEAN", "DB_TYPE_CURSOR",
   "NUMBER", "STRING", "DATETIME", "CURSOR"]

/-- Model of `getattr(oracledb, name)`: the looked-up attribute when the
driver module has it, otherwise an `AttributeError`. -/
def getattrOracledb (name : String) : Except PyError String :=
  if oracledbAttrs.contains name then .ok name else .error (.attributeError name)

/-- A request's parameter mapping in insertion order. -/
abbrev ParamsList := List (String × ParamValue)

/-- `BaseView.prepare_proc_params`: walks the parameter mapping in insertion
order; an entry that is a dict with `dir = OUT` allocates a driver OUT
variable of the type named by its `type` entry (via `getattr` on the driver
module) and records it, keyed by the parameter name, in the OUT mapping;
every other entry is coerced by `coerce_param` and appended.  Returns the
positional bind list and the OUT mapping, or the first error raised. -/
def prepare_proc_params : ParamsList → Except PyError (List BoundParam × List (String × String))
  | [] => .ok ([], [])
  | (k, v) :: rest =>
    match v with
    | .pOut ty =>
      match getattrOracledb ty with
      | .error e => .error e
      | .ok t =>
        match prepare_proc_params rest with
        | .error e => .error e
        | .ok (pp, outs) => .ok (.outVar t :: pp, (k, t) :: outs)
    | _ =>
      match coerce_param k v with
      | .error e => .error e
      | .ok b =>
        match prepare_proc_params rest with
        | .error e => .error e
        | .ok (pp, outs) => .ok (b :: pp, outs)

/-- Specification-side reading of a character list that exactly matches
`\d{4}-\d{2}-\d{2}`: the year, month and day digit groups read as decimal
numbers; `none` when the list does not match the pattern.  (Code point
45 is the hyphen.) -/
def specParse10L (l : List Char) : Option (Nat × Nat × Nat) :=
  match l with
  | [a, b, c, d, e, f, g, h, i, j] =>
    if isDigP a ∧ isDigP b ∧ isDigP c ∧ isDigP d ∧ e.toNat = 45 ∧
       isDigP f ∧ isDigP g ∧ h.toNat = 45 ∧ isDigP i ∧ isDigP j then
      some (dv a * 1000 + dv b * 100 + dv c * 10 + dv d, dv f * 10 + dv g, dv i * 10 + dv j)
    else none
  | _ => none

/-- Specification-side reading of a string that exactly matches
`\d{4}-\d{2}-\d{2}`. -/
def specParse10 (s : String) : Option (Nat × Nat × Nat) := specParse10L s.toList

/-- Specification-side reading of a character list that exactly matches
`\d{4}-\d{2}-\d{2} \d{2}:\d{2}:\d{2}` (one literal blank, code point 32;
colons are code point 58): the six digit groups read as decimal numbers. -/
def specParse19L (l : List Char) : Option (Nat × Nat × Nat × Nat × Nat × Nat) :=
  match l with
  | [a, b, c, d, e, f, g, h, i, j, sp, p, q, u, r, t, w, x, z] =>
    if isDigP a ∧ isDigP b ∧ isDigP c ∧ isDigP d ∧ e.toNat = 45 ∧
       isDigP f ∧ isDigP g ∧ h.toNat = 45 ∧ isDigP i ∧ isDigP j ∧
       sp.toNat = 32 ∧ isDigP p ∧ isDigP q ∧ u.toNat = 58 ∧
       isDigP r ∧ isDigP t ∧ w.toNat = 58 ∧ isDigP x ∧ isDigP z then
      some (dv a * 1000 + dv b * 100 + dv c * 10 + dv d, dv f * 10 + dv g,
            dv i * 10 + dv j, dv p * 10 + dv q, dv r * 10 + dv t, dv x * 10 + dv z)
    else none
  | _ => none

/-- Specification-side reading of a string that exactly matches
`\d{4}-\d{2}-\d{2} \d{2}:\d{2}:\d{2}`. -/
def specParse19 (s : String) : Option (Nat × Nat × Nat × Nat × Nat × Nat) :=
  specParse19L s.toList

/-- A valid calendar date in the range Python's `datetime` accepts. -/
def validDate (y m d : Nat) : Bool :=
  decide (1 ≤ y ∧ y ≤ 9999 ∧ 1 ≤ m ∧ m ≤ 12 ∧ 1 ≤ d ∧ d ≤ daysInMonth y m)

/-- A valid time of day in the range Python's `datetime` accepts. -/
def validTime (hh mi ss : Nat) : Bool := decide (hh ≤ 23 ∧ mi ≤ 59 ∧ ss ≤ 59)

/-- Result of classifying a SQL text in `BaseView.execute_sql`: invoke a
stored procedure of the given name, or execute the text directly. -/
inductive Dispatch where
  | procCall (name : String)
  | query (sql : String)
deriving DecidableEq, Repr

/-- Classification performed by `BaseView.execute_sql`: when the SQL text
starts with the character sequence `CALL` (Python `sql.startswith('CALL')`,
case-sensitive), the first five characters (`sql[5:]`) are stripped and the
remainder is the procedure name; otherwise the full text is executed
directly. -/
def execute_sql_dispatch (sql : String) : Dispatch :=
  if "CALL".toList.isPrefixOf sql.toList then
    .procCall (String.mk (sql.toList.drop 5))
  else .query sql

/-- The value stored for a column name in `DataTableView`'s `columns`
mapping: either the two-element list `[semantic type, native type name]`
from the lookup table, or a bare string (the default `'string'`). -/
inductive ColTypeVal where
  | pairVal (semantic nativeName : String)
  | strVal (s : String)
deriving DecidableEq, Repr

/-- The literal dict `column_type_mapping` of `DataTableView.get_column_type`:
native driver type name to the pair (semantic type, native type name). -/
def column_type_mapping : List (String × String × String) :=
  [("DB_TYPE_VARCHAR", "string", "DB_TYPE_VARCHAR"),
   ("DB_TYPE_NVARCHAR", "string", "DB_TYPE_NVARCHAR"),
   ("DB_TYPE_NCHAR", "string", "DB_TYPE_NCHAR"),
   ("DB_TYPE_CHAR", "string", "DB_TYPE_CHAR"),
   ("DB_TYPE_NUMBER", "number", "DB_TYPE_NUMBER"),
   ("DB_TYPE_BINARY_FLOAT", "number", "DB_TYPE_BINARY_FLOAT"),
   ("DB_TYPE_BINARY_DOUBLE", "number", "DB_TYPE_BINARY_DOUBLE"),
   ("DB_TYPE_DATE", "date", "DB_TYPE_DATE"),
   ("DB_TYPE_TIMESTAMP", "date", "DB_TYPE_TIMESTAMP"),
   ("DB_TYPE_TIMESTAMP_WITH_TIMEZONE", "date", "DB_TYPE_TIMESTAMP_WITH_TIMEZONE"),
   ("DB_TYPE_TIMESTAMP_LTZ", "date", "DB_TYPE_TIMESTAMP_LTZ"),
   ("DB_TYPE_TIMESTAMP_TZ", "date", "DB_TYPE_TIMESTAMP_TZ"),
   ("DB_TYPE_TIMESTAMP_UTC", "date", "DB_TYPE_TIMESTAMP_UTC"),
   ("DB_TYPE_RAW", "string", "DB_TYPE_RAW"),
   ("DB_TYPE_LONG", "string", "DB_TYPE_LONG"),
   ("DB_TYPE_BLOB", "string", "DB_TYPE_BLOB"),
   ("DB_TYPE_CLOB", "string", "DB_TYPE_CLOB"),
   ("DB_TYPE_NCLOB", "string", "DB_TYPE_NCLOB"),
   ("DB_TYPE_BOOLEAN", "boolean", "DB_TYPE_BOOLEAN"),
   ("DB_TYPE_INT64", "number", "DB_TYPE_INT64"),
   ("DB_TYPE_INT32", "number", "DB_TYPE_INT32"),
   ("DB_TYPE_INT16", "number", "DB_TYPE_INT16"),
   ("DB_TYPE_INT8", "number", "DB_TYPE_INT8"),
   ("DB_TYPE_FLOAT", "number", "DB_TYPE_FLOAT"),
   ("DB_TYPE_DOUBLE", "number", "DB_TYPE_DOUBLE"),
   ("DB_TYPE_DECIMAL", "number", "DB_TYPE_DECIMAL"),
   ("DB_TYPE_BIGINT", "number", "DB_TYPE_BIGINT"),
   ("DB_TYPE_SMALLINT", "number", "DB_TYPE_SMALLINT"),
   ("DB_TYPE_TINYINT", "number", "DB_TYPE_TINYINT"),
   ("DB_TYPE_XML", "string", "DB_TYPE_XML"),
   ("DB_TYPE_REF_CURSOR", "string", "DB_TYPE_REF_CURSOR"),
   ("DB_TYPE_TIMESTAMP_WITH_LOCAL_TIME_ZONE", "date", "DB_TYPE_TIMESTAMP_WITH_LOCAL_TIME_ZONE"),
   ("DB_TYPE_TIMESTAMP_WITH_UTC_TIME_ZONE", "date", "DB_TYPE_TIMESTAMP_WITH_UTC_TIME_ZONE"),
   ("DB_TYPE_TIMESTAMP_WITH_TIME_ZONE", "date", "DB_TYPE_TIMESTAMP_WITH_TIME_ZONE")]

/-- `DataTableView.get_column_type`: `column_type_mapping.get(name, 'string')`
on the native type's `name` — the `[semantic, native]` pair for a listed
native type, the bare string `'string'` otherwise. -/
def get_column_type (native : String) : ColTypeVal :=
  match column_type_mapping.find? (fun p => p.1 == native) with
  | some p => .pairVal p.2.1 p.2.2
  | none => .strVal "string"

/-- Inserts a key into a Python dict modelled as an association list in
insertion order: an existing key keeps its position and takes the new value,
a new key is appended. -/
def pyDictInsert (d : List (String × α)) (k : String) (v : α) : List (String × α) :=
  if d.any (fun p => p.1 == k) then
    d.map (fun p => if p.1 == k then (k, v) else p)
  else d ++ [(k, v)]

/-- Builds a Python dict (insertion-ordered, later duplicate keys overwrite
in place) from a list of key-value pairs; models both dict comprehensions
and `dict(zip(...))`. -/
def pyDict (l : List (String × α)) : List (String × α) :=
  l.foldl (fun d p => pyDictInsert d p.1 p.2) []

/-- The `{'columns': ..., 'rows': ...}` wire shape produced by
`DataTableView`: the insertion-ordered columns dict and the rows as lists of
cells in fetch order. -/
structure TableResult where
  columns : List (String × ColTypeVal)
  rows : List (List Cell)
deriving DecidableEq, Repr

/-- What the driver reports after `cursor.execute`: the column metadata
(`cursor.description`, one `(name, native type name)` per column; absent for
statements producing no result set) and the rows `fetchall` would return. -/
structure QueryResult where
  description : Option (List (String × String))
  rows : List (List Cell)
deriving DecidableEq, Repr

/-- Table-mode projection of a result set: the columns dict built by the
comprehension `{col[0]: self.get_column_type(col[1]) for col in description}`
and the rows re-shaped by `[list(row) for row in rows]`. -/
def project_table (desc : List (String × String)) (rows : List (List Cell)) : TableResult :=
  ⟨pyDict (desc.map (fun col => (col.1, get_column_type col.2))), rows⟩

/-- Outcome of `DataTableView.execute_query`: the returned dict, plus whether
the method itself issued `cursor.connection.commit()` before returning (it
does so exactly when the statement produced no result set). -/
structure ExecutedQuery where
  result : TableResult
  committedInside : Bool
deriving DecidableEq, Repr

/-- `DataTableView.execute_query` on the driver's response to the executed
statement: with a result set present, project it in table mode (no commit in
this method — the caller commits); with no result set, commit explicitly and
return the empty projection `{'columns': {}, 'rows': []}`. -/
def dtv_execute_query (q : QueryResult) : ExecutedQuery :=
  match q.description with
  | some desc => ⟨project_table desc q.rows, false⟩
  | none => ⟨⟨[], []⟩, true⟩

/-- State of a bound OUT variable once `callproc` has run: a cursor-typed
variable holds a nested result set (its description and fetched rows), any
other variable holds a scalar value of its declared type. -/
inductive ExecutedOut where
  | cursorVar (desc : List (String × String)) (rows : List (List Cell))
  | scalarVar (ty : String) (c : Cell)
deriving DecidableEq, Repr

/-- A value of the procedure-output mapping: a scalar read directly from the
variable, a nested table-mode projection (`DataTableView`), or a list of
per-row column-to-value dicts (`QueryView`). -/
inductive ProcOutVal where
  | scalar (c : Cell)
  | table (t : TableResult)
  | rowDicts (l : List (List (String × Cell)))
deriving DecidableEq, Repr

/-- `DataTableView.get_proc_output`: walks the OUT mapping in insertion
order; a cursor-typed variable is projected to a nested
`{'columns': ..., 'rows': ...}` dict (the same comprehension and row
re-shaping as table mode), any other variable contributes `getvalue()`
directly. -/
def dtv_get_proc_output (outs : List (String × ExecutedOut)) : List (String × ProcOutVal) :=
  outs.map (fun p =>
    (p.1, match p.2 with
      | .cursorVar desc rows =>
        .table ⟨pyDict (desc.map (fun col => (col.1, get_column_type col.2))), rows⟩
      | .scalarVar _ c => .scalar c))

/-- `QueryView.get_proc_output`: walks the OUT mapping in insertion order; a
cursor-typed variable is projected to `[dict(zip(columns, row)) for row in
rows]`, any other variable contributes `getvalue()` directly. -/
def qv_get_proc_output (outs : List (String × ExecutedOut)) : List (String × ProcOutVal) :=
  outs.map (fun p =>
    (p.1, match p.2 with
      | .cursorVar desc rows =>
        .rowDicts (rows.map (fun row => pyDict ((desc.map Prod.fst).zip row)))
      | .scalarVar _ c => .scalar c))

/-- Abstract model of the database behind the driver for one request: the
result set a direct statement produces, and the contents of each OUT
variable (addressed by parameter name) after a procedure call. -/
structure DbModel where
  runQuery : String → ParamsList → QueryResult
  curDesc : String → List (String × String)
  curRows : String → List (List Cell)
  scalarOut : String → Cell

/-- State the driver leaves in the OUT variable bound for parameter `k` with
declared type `ty` once `callproc` has run: cursor-typed variables hold the
database's nested result set, others hold its scalar answer. -/
def fillOut (db : DbModel) (k ty : String) : ExecutedOut :=
  if ty = "DB_TYPE_CURSOR" then .cursorVar (db.curDesc k) (db.curRows k)
  else .scalarVar ty (db.scalarOut k)

/-- Value returned by `BaseView.execute_sql` in `DataTableView`: a table
projection from the query path, or the procedure-call success dict (with the
`output` entry present exactly when OUT parameters were bound). -/
inductive ExecResult where
  | queryResult (t : TableResult)
  | callResult (message : String) (output : Option (List (String × ProcOutVal)))
deriving DecidableEq, Repr

/-- The success message of `BaseView.call_procedure`. -/
def procOkMsg : String := "Вызов процедуры выполнен успешно"

/-- `BaseView.call_procedure` as run by `DataTableView`: bind the parameters,
run `callproc` (then commit), and when OUT parameters were bound attach
`get_proc_output` of their post-call contents. -/
def dtv_call_procedure (db : DbModel) (_name : String) (params : ParamsList) :
    Except PyError ExecResult :=
  match prepare_proc_params params with
  | .error e => .error e
  | .ok (_, outs) =>
    .ok (.callResult procOkMsg
      (if outs.isEmpty then none
       else some (dtv_get_proc_output (outs.map (fun p => (p.1, fillOut db p.1 p.2))))))

/-- `BaseView.execute_sql` as run by `DataTableView`: dispatch on the `CALL`
character sequence at the start of the SQL text; the query path hands the raw
parameter mapping to `cursor.execute` and projects the driver's response. -/
def dtv_execute_sql (db : DbModel) (sql : String) (params : ParamsList) :
    Except PyError ExecResult :=
  if "CALL".toList.isPrefixOf sql.toList then
    dtv_call_procedure db (String.mk (sql.toList.drop 5)) params
  else .ok (.queryResult (dtv_execute_query (db.runQuery sql params)).result)

/-- Python `str(e)` for the errors of this model: a `ValidationError` shows
its message, an `AttributeError` shows the driver module attribute text. -/
def pyErrorMessage : PyError → String
  | .validationError _ msg => msg
  | .attributeError attr =>
    "module \x27oracledb\x27 has no attribute \x27" ++ attr ++ "\x27"

/-- Outcome of the guarded block of `BaseView.post`: a result, a driver error
(`oracledb.Error`), or any other exception with its `str(e)` message. -/
inductive ExecOutcome where
  | ok (r : ExecResult)
  | dbError (detail : String)
  | exc (msg : String)
deriving DecidableEq, Repr

/-- A request body as `BaseView.post` inspects it: not a dict at all, or a
dict with optional `sql` and `params` entries. -/
inductive RequestBody where
  | notDict
  | dict (sql : Option String) (params : Option ParamsList)
deriving DecidableEq, Repr

/-- The wire response of `BaseView.post`: `{'data': result}` with HTTP 200,
or `{'error': message}` with HTTP 400. -/
inductive HttpResponse where
  | okData (r : ExecResult)
  | errorResp (msg : String)
deriving DecidableEq, Repr

/-- Error message for a request body that is not a dict. -/
def msgBadFormat : String := "Неверный формат данных"

/-- Error message for a missing or falsy `sql` entry. -/
def msgNoSql : String := "SQL-запрос не предоставлен"

/-- Generic error message returned for any driver-reported error. -/
def msgDbGeneric : String := "Ошибка базы данных"

/-- `BaseView.post`: reject a non-dict body; read `sql` and `params` (the
latter defaulting to the empty mapping); reject a missing or empty `sql`;
otherwise run the guarded execution, turning an `oracledb.Error` into the
fixed generic message and any other exception into its own `str(e)`. -/
def post (body : RequestBody) (run : String → ParamsList → ExecOutcome) : HttpResponse :=
  match body with
  | .notDict => .errorResp msgBadFormat
  | .dict sqlOpt paramsOpt =>
    match sqlOpt with
    | none => .errorResp msgNoSql
    | some s =>
      if s = "" then .errorResp msgNoSql
      else
        match run s (paramsOpt.getD []) with
        | .ok r => .okData r
        | .dbError _ => .errorResp msgDbGeneric
        | .exc m => .errorResp m

/-- Response `BaseView.post` derives from the guarded block's outcome once
the body checks have passed. -/
def responseOf : ExecOutcome → HttpResponse
  | .ok r => .okData r
  | .dbError _ => .errorResp msgDbGeneric
  | .exc m => .errorResp m

/-- The guarded block of `post` wired to `DataTableView`'s `execute_sql`:
binder and dispatch errors surface as ordinary exceptions carrying their
`str(e)` text. -/
def dtv_run (db : DbModel) (sql : String) (params : ParamsList) : ExecOutcome :=
  match dtv_execute_sql db sql params with
  | .ok r => .ok r
  | .error e => .exc (pyErrorMessage e)

/-- A degenerate database model used to instantiate closed statements. -/
def db0 : DbModel :=
  ⟨fun _ _ => ⟨none, []⟩, fun _ => [], fun _ => [], fun _ => .cNull⟩

/-- Starting with the character sequence `CALL` is the same as having
`['C', 'A', 'L', 'L']` as the first four characters. -/
theorem isPrefixOf_call_iff (l : List Char) :
    ("CALL".toList.isPrefixOf l = true) ↔ l.take 4 = "CALL".toList := by
  rcases l with _ | ⟨a, _ | ⟨b, _ | ⟨c, _ | ⟨d, t⟩⟩⟩⟩ <;>
    simp [List.isPrefixOf, List.take, @eq_comm Char]

/-- C1: dispatch classifies a SQL text as a procedure call exactly when the
text starts with the four-character, case-sensitive sequence `CALL`; in that
case those four characters plus one further (delimiter) character are
stripped and the remainder is the procedure name; every other text — in
particular one containing `CALL` elsewhere — is executed as a direct
query. -/
theorem c1_dispatch_thm (sql : String) :
    ((∃ name, execute_sql_dispatch sql = .procCall name) ↔
      sql.toList.take 4 = "CALL".toList) ∧
    (sql.toList.take 4 = "CALL".toList →
      execute_sql_dispatch sql = .procCall (String.mk (sql.toList.drop 5))) ∧
    (sql.toList.take 4 ≠ "CALL".toList →
      execute_sql_dispatch sql = .query sql) := by
  unfold execute_sql_dispatch
  by_cases h : "CALL".toList.isPrefixOf sql.toList = true
  · have ht := (isPrefixOf_call_iff sql.toList).mp h
    rw [if_pos h]
    simp [ht]
    exact ht
  · have ht : ¬ sql.toList.take 4 = "CALL".toList :=
      fun hc => h ((isPrefixOf_call_iff sql.toList).mpr hc)
    rw [if_neg h]
    simp [ht]
    exact ht

/-- Witness for C1: `CALL my_proc` invokes the procedure `my_proc`;
`SELECTCALL 1` and the lower-case `call my_proc` are direct queries. -/
theorem c1_dispatch_witness :
    execute_sql_dispatch "CALL my_proc" = .procCall "my_proc" ∧
    execute_sql_dispatch "SELECTCALL 1" = .query "SELECTCALL 1" ∧
    execute_sql_dispatch "call my_proc" = .query "call my_proc" := by
  refine ⟨?_, ?_, ?_⟩
  · have h := (c1_dispatch_thm "CALL my_proc").2.1 (by decide)
    rw [h]; rfl
  · exact (c1_dispatch_thm "SELECTCALL 1").2.2 (by decide)
  · exact (c1_dispatch_thm "call my_proc").2.2 (by decide)

/-- C7: when the executed statement produces no result set
(`cursor.description` is absent), table-mode execution returns the empty
projection `{'columns': {}, 'rows': []}` and has itself issued
`cursor.connection.commit()` before returning. -/
theorem c7_empty_commit_thm (rows : List (List Cell)) :
    dtv_execute_query ⟨none, rows⟩ = ⟨⟨[], []⟩, true⟩ := rfl

/-- A digit character is not the hyphen, the colon or the blank. -/
theorem beq_ne_of_digit (c : Char) (n : Nat) (hn : n < 48 ∨ 57 < n) (h : isDigP c) :
    (c.toNat == n) = false := by
  unfold isDigP at h
  rw [beq_eq_false_iff_ne]
  omega

/-- A character with a known code point counts for that code point. -/
theorem beq_toNat_self (c : Char) (n : Nat) (h : c.toNat = n) : (c.toNat == n) = true := by
  simp [h]

/-- A character with a known code point below 48 does not count for another
code point. -/
theorem beq_toNat_ne (c : Char) (n n2 : Nat) (h : c.toNat = n) (hne : n ≠ n2) :
    (c.toNat == n2) = false := by
  rw [beq_eq_false_iff_ne]
  omega

/-- The value of a digit character is at most 9. -/
theorem dv_le (c : Char) (h : isDigP c) : dv c ≤ 9 := by
  unfold isDigP at h; unfold dv; omega

/-- Python's month lengths never exceed 31 days. -/
theorem daysInMonth_le (y m : Nat) : daysInMonth y m ≤ 31 := by
  unfold daysInMonth
  split
  · split <;> omega
  · split <;> omega

/-- On two digit characters, the `%m` class matches exactly the decimal
readings 1 through 12. -/
theorem mRegex_iff (a b : Char) (ha : isDigP a) (hb : isDigP b) :
    mRegexP a b ↔ (1 ≤ dv a * 10 + dv b ∧ dv a * 10 + dv b ≤ 12) := by
  unfold isDigP at ha hb
  unfold mRegexP dv
  omega

/-- On two digit characters, the `%d` class matches exactly the decimal
readings 1 through 31. -/
theorem dRegex_iff (a b : Char) (ha : isDigP a) (hb : isDigP b) :
    dRegexP a b ↔ (1 ≤ dv a * 10 + dv b ∧ dv a * 10 + dv b ≤ 31) := by
  unfold isDigP at ha hb
  unfold dRegexP isDigP dv
  omega

/-- On two digit characters, the `%H` class matches exactly the decimal
readings 0 through 23. -/
theorem hRegex_iff (a b : Char) (ha : isDigP a) (hb : isDigP b) :
    hRegexP a b ↔ dv a * 10 + dv b ≤ 23 := by
  unfold isDigP at ha hb
  unfold hRegexP isDigP dv
  omega

/-- On two digit characters, the `%M`/`%S` class matches exactly the decimal
readings 0 through 59. -/
theorem msRegex_iff (a b : Char) (ha : isDigP a) (hb : isDigP b) :
    msRegexP a b ↔ dv a * 10 + dv b ≤ 59 := by
  unfold isDigP at ha hb
  unfold msRegexP isDigP dv
  omega

/-- On a digit-led match, the `%d` value is the two-digit decimal reading. -/
theorem dayVal_digit (a b : Char) (ha : isDigP a) : dayVal a b = dv a * 10 + dv b := by
  unfold isDigP at ha
  unfold dayVal
  rw [if_neg (by omega)]

/-- The date branch of `coerceStrL` succeeds with the parsed date when the
first shape gate holds and the parse succeeds. -/
theorem coerceStrL_date_ok (k : String) (orig : ParamValue) (l : List Char) (y m d : Nat)
    (h1 : countCP l 45 = 2) (h2 : l.length = 10) (hs : strptime10L l = some (y, m, d)) :
    coerceStrL k orig l = .ok (.date y m d) := by
  unfold coerceStrL
  rw [if_pos ⟨h1, h2⟩, hs]

/-- The date branch of `coerceStrL` raises the dated `ValidationError` when
the first shape gate holds and the parse fails. -/
theorem coerceStrL_date_err (k : String) (orig : ParamValue) (l : List Char)
    (h1 : countCP l 45 = 2) (h2 : l.length = 10) (hs : strptime10L l = none) :
    coerceStrL k orig l = .error (.validationError k (dateConvMsg k)) := by
  unfold coerceStrL
  rw [if_pos ⟨h1, h2⟩, hs]

/-- The date-time branch of `coerceStrL` succeeds with the parsed date-time
when the second shape gate holds and the parse succeeds. -/
theorem coerceStrL_dt_ok (k : String) (orig : ParamValue) (l : List Char)
    (y mo d hh mi ss : Nat) (h1 : countCP l 45 = 2) (h2 : countCP l 58 = 2)
    (h3 : l.length = 19) (hs : strptime19L l = some (y, mo, d, hh, mi, ss)) :
    coerceStrL k orig l = .ok (.datetime y mo d hh mi ss) := by
  have hno : ¬(countCP l 45 = 2 ∧ l.length = 10) := by
    rintro ⟨-, h10⟩; omega
  unfold coerceStrL
  rw [if_neg hno, if_pos ⟨h1, h2, h3⟩, hs]

/-- Outside both shape gates, `coerceStrL` passes the original value through
unchanged. -/
theorem coerceStrL_pass (k : String) (orig : ParamValue) (l : List Char)
    (h1 : ¬(countCP l 45 = 2 ∧ l.length = 10))
    (h2 : ¬(countCP l 45 = 2 ∧ countCP l 58 = 2 ∧ l.length = 19)) :
    coerceStrL k orig l = .ok (.value orig) := by
  unfold coerceStrL
  rw [if_neg h1, if_neg h2]

/-- On a character list matching `\d{4}-\d{2}-\d{2}`, the string branch of
the binder converts exactly the valid calendar dates and raises the named
`ValidationError` on the rest. -/
theorem coerceStr10_spec (k : String) (orig : ParamValue) (l : List Char) (y m d : Nat)
    (hp : specParse10L l = some (y, m, d)) :
    (validDate y m d = true → coerceStrL k orig l = .ok (.date y m d)) ∧
    (validDate y m d = false →
      coerceStrL k orig l = .error (.validationError k (dateConvMsg k))) := by
  rcases l with _ | ⟨u1, _ | ⟨u2, _ | ⟨u3, _ | ⟨u4, _ | ⟨w1, _ | ⟨v1, _ | ⟨v2, _ | ⟨w2, _ |
    ⟨x1, _ | ⟨x2, _ | ⟨xx, t⟩⟩⟩⟩⟩⟩⟩⟩⟩⟩⟩ <;> simp only [specParse10L] at hp
  all_goals try (exact Option.noConfusion hp)
  split at hp
  · rename_i hcond
    simp only [Option.some.injEq, Prod.mk.injEq] at hp
    obtain ⟨hy, hm, hd⟩ := hp
    subst hy; subst hm; subst hd
    obtain ⟨ha1, ha2, ha3, ha4, hw1, hb1, hb2, hw2, hx1, hx2⟩ := hcond
    have hcnt : countCP [u1, u2, u3, u4, w1, v1, v2, w2, x1, x2] 45 = 2 := by
      simp [countCP, List.countP_cons, List.countP_nil,
        beq_ne_of_digit u1 45 (by omega) ha1, beq_ne_of_digit u2 45 (by omega) ha2,
        beq_ne_of_digit u3 45 (by omega) ha3, beq_ne_of_digit u4 45 (by omega) ha4,
        beq_ne_of_digit v1 45 (by omega) hb1, beq_ne_of_digit v2 45 (by omega) hb2,
        beq_ne_of_digit x1 45 (by omega) hx1, beq_ne_of_digit x2 45 (by omega) hx2,
        beq_toNat_self w1 45 hw1, beq_toNat_self w2 45 hw2]
    constructor
    · intro hv
      simp only [validDate, decide_eq_true_eq] at hv
      have hoc : isDigP u1 ∧ isDigP u2 ∧ isDigP u3 ∧ isDigP u4 ∧ w1.toNat = 45 ∧
          mRegexP v1 v2 ∧ w2.toNat = 45 ∧ dRegexP x1 x2 := by
        refine ⟨ha1, ha2, ha3, ha4, hw1, ?_, hw2, ?_⟩
        · exact (mRegex_iff v1 v2 hb1 hb2).mpr (by omega)
        · refine (dRegex_iff x1 x2 hx1 hx2).mpr ?_
          have h31 := daysInMonth_le (dv u1 * 1000 + dv u2 * 100 + dv u3 * 10 + dv u4)
            (dv v1 * 10 + dv v2)
          omega
      have hs : strptime10L [u1, u2, u3, u4, w1, v1, v2, w2, x1, x2] =
          some (dv u1 * 1000 + dv u2 * 100 + dv u3 * 10 + dv u4,
                dv v1 * 10 + dv v2, dv x1 * 10 + dv x2) := by
        simp only [strptime10L]
        rw [if_pos hoc, dayVal_digit x1 x2 hx1,
          if_pos ⟨hv.1, hv.2.2.2.2.2⟩]
      exact coerceStrL_date_ok k orig _ _ _ _ hcnt rfl hs
    · intro hv
      simp only [validDate, decide_eq_false_iff_not] at hv
      have hs : strptime10L [u1, u2, u3, u4, w1, v1, v2, w2, x1, x2] = none := by
        simp only [strptime10L]
        by_cases hoc : isDigP u1 ∧ isDigP u2 ∧ isDigP u3 ∧ isDigP u4 ∧ w1.toNat = 45 ∧
            mRegexP v1 v2 ∧ w2.toNat = 45 ∧ dRegexP x1 x2
        · have hmm2 := (mRegex_iff v1 v2 hb1 hb2).mp hoc.2.2.2.2.2.1
          have hdd2 := (dRegex_iff x1 x2 hx1 hx2).mp hoc.2.2.2.2.2.2.2
          have hy1 := dv_le u1 ha1
          have hy2 := dv_le u2 ha2
          have hy3 := dv_le u3 ha3
          have hy4 := dv_le u4 ha4
          rw [if_pos hoc, dayVal_digit x1 x2 hx1,
            if_neg (fun hin => hv ⟨hin.1, by omega, by omega, by omega, by omega, hin.2⟩)]
        · rw [if_neg hoc]
      exact coerceStrL_date_err k orig _ hcnt rfl hs
  · exact absurd hp (by simp)

/-- On a character list matching `\d{4}-\d{2}-\d{2} \d{2}:\d{2}:\d{2}` whose
digit groups form a valid calendar date and time of day, the string branch
of the binder converts to the corresponding date-time. -/
theorem coerceStr19_ok (k : String) (orig : ParamValue) (l : List Char)
    (y mo d hh mi ss : Nat) (hp : specParse19L l = some (y, mo, d, hh, mi, ss))
    (hvd : validDate y mo d = true) (hvt : validTime hh mi ss = true) :
    coerceStrL k orig l = .ok (.datetime y mo d hh mi ss) := by
  rcases l with _ | ⟨u1, _ | ⟨u2, _ | ⟨u3, _ | ⟨u4, _ | ⟨w1, _ | ⟨v1, _ | ⟨v2, _ | ⟨w2, _ |
    ⟨x1, _ | ⟨x2, _ | ⟨sp, _ | ⟨p1, _ | ⟨p2, _ | ⟨q1, _ | ⟨r1, _ | ⟨r2, _ | ⟨q2, _ |
    ⟨z1, _ | ⟨z2, _ | ⟨xx, t⟩⟩⟩⟩⟩⟩⟩⟩⟩⟩⟩⟩⟩⟩⟩⟩⟩⟩⟩⟩ <;> simp only [specParse19L] at hp
  all_goals try (exact Option.noConfusion hp)
  split at hp
  · rename_i hcond
    simp only [Option.some.injEq, Prod.mk.injEq] at hp
    obtain ⟨hy, hmo, hd, hhh, hmi, hss⟩ := hp
    subst hy; subst hmo; subst hd; subst hhh; subst hmi; subst hss
    obtain ⟨ha1, ha2, ha3, ha4, hw1, hb1, hb2, hw2, hx1, hx2, hsp, hp1, hp2, hq1,
      hr1, hr2, hq2, hz1, hz2⟩ := hcond
    simp only [validDate, decide_eq_true_eq] at hvd
    simp only [validTime, decide_eq_true_eq] at hvt
    have hcnt45 : countCP [u1, u2, u3, u4, w1, v1, v2, w2, x1, x2, sp, p1, p2, q1,
        r1, r2, q2, z1, z2] 45 = 2 := by
      simp [countCP, List.countP_cons, List.countP_nil,
        beq_ne_of_digit u1 45 (by omega) ha1, beq_ne_of_digit u2 45 (by omega) ha2,
        beq_ne_of_digit u3 45 (by omega) ha3, beq_ne_of_digit u4 45 (by omega) ha4,
        beq_ne_of_digit v1 45 (by omega) hb1, beq_ne_of_digit v2 45 (by omega) hb2,
        beq_ne_of_digit x1 45 (by omega) hx1, beq_ne_of_digit x2 45 (by omega) hx2,
        beq_ne_of_digit p1 45 (by omega) hp1, beq_ne_of_digit p2 45 (by omega) hp2,
        beq_ne_of_digit r1 45 (by omega) hr1, beq_ne_of_digit r2 45 (by omega) hr2,
        beq_ne_of_digit z1 45 (by omega) hz1, beq_ne_of_digit z2 45 (by omega) hz2,
        beq_toNat_self w1 45 hw1, beq_toNat_self w2 45 hw2,
        beq_toNat_ne sp 32 45 hsp (by omega),
        beq_toNat_ne q1 58 45 hq1 (by omega), beq_toNat_ne q2 58 45 hq2 (by omega)]
    have hcnt58 : countCP [u1, u2, u3, u4, w1, v1, v2, w2, x1, x2, sp, p1, p2, q1,
        r1, r2, q2, z1, z2] 58 = 2 := by
      simp [countCP, List.countP_cons, List.countP_nil,
        beq_ne_of_digit u1 58 (by omega) ha1, beq_ne_of_digit u2 58 (by omega) ha2,
        beq_ne_of_digit u3 58 (by omega) ha3, beq_ne_of_digit u4 58 (by omega) ha4,
        beq_ne_of_digit v1 58 (by omega) hb1, beq_ne_of_digit v2 58 (by omega) hb2,
        beq_ne_of_digit x1 58 (by omega) hx1, beq_ne_of_digit x2 58 (by omega) hx2,
        beq_ne_of_digit p1 58 (by omega) hp1, beq_ne_of_digit p2 58 (by omega) hp2,
        beq_ne_of_digit r1 58 (by omega) hr1, beq_ne_of_digit r2 58 (by omega) hr2,
        beq_ne_of_digit z1 58 (by omega) hz1, beq_ne_of_digit z2 58 (by omega) hz2,
        beq_toNat_ne w1 45 58 hw1 (by omega), beq_toNat_ne w2 45 58 hw2 (by omega),
        beq_toNat_ne sp 32 58 hsp (by omega),
        beq_toNat_self q1 58 hq1, beq_toNat_self q2 58 hq2]
    have hoc : isDigP u1 ∧ isDigP u2 ∧ isDigP u3 ∧ isDigP u4 ∧ w1.toNat = 45 ∧
        mRegexP v1 v2 ∧ w2.toNat = 45 ∧ dRegexP x1 x2 ∧ sp.toNat = 32 ∧
        hRegexP p1 p2 ∧ q1.toNat = 58 ∧ msRegexP r1 r2 ∧ q2.toNat = 58 ∧
        msRegexP z1 z2 := by
      refine ⟨ha1, ha2, ha3, ha4, hw1, ?_, hw2, ?_, hsp, ?_, hq1, ?_, hq2, ?_⟩
      · exact (mRegex_iff v1 v2 hb1 hb2).mpr (by omega)
      · refine (dRegex_iff x1 x2 hx1 hx2).mpr ?_
        have h31 := daysInMonth_le (dv u1 * 1000 + dv u2 * 100 + dv u3 * 10 + dv u4)
          (dv v1 * 10 + dv v2)
        omega
      · exact (hRegex_iff p1 p2 hp1 hp2).mpr (by omega)
      · exact (msRegex_iff r1 r2 hr1 hr2).mpr (by omega)
      · exact (msRegex_iff z1 z2 hz1 hz2).mpr (by omega)
    have hs : strptime19L [u1, u2, u3, u4, w1, v1, v2, w2, x1, x2, sp, p1, p2, q1,
        r1, r2, q2, z1, z2] =
        some (dv u1 * 1000 + dv u2 * 100 + dv u3 * 10 + dv u4, dv v1 * 10 + dv v2,
              dv x1 * 10 + dv x2, dv p1 * 10 + dv p2, dv r1 * 10 + dv r2,
              dv z1 * 10 + dv z2) := by
      simp only [strptime19L]
      rw [if_pos hoc, dayVal_digit x1 x2 hx1, if_pos ⟨hvd.1, hvd.2.2.2.2.2⟩]
    exact coerceStrL_dt_ok k orig _ _ _ _ _ _ _ hcnt45 hcnt58 rfl hs
  · exact Option.noConfusion hp

/-- Recognizes an OUT descriptor among parameter values. -/
def isOutDescriptor : ParamValue → Bool
  | .pOut _ => true
  | _ => false

/-- Holds when a value enters one of the two date-coercion branches of the
binder: a string with exactly two hyphens and length 10, or exactly two
hyphens, two colons and length 19. -/
def isDateCoerced (v : ParamValue) : Bool :=
  match v with
  | .pStr s =>
    decide (countCP s.toList 45 = 2 ∧ s.toList.length = 10) ||
    decide (countCP s.toList 45 = 2 ∧ countCP s.toList 58 = 2 ∧ s.toList.length = 19)
  | _ => false

/-- A value outside both date-coercion gates is bound unchanged. -/
theorem coerce_param_pass (k : String) (v : ParamValue) (h : isDateCoerced v = false) :
    coerce_param k v = .ok (.value v) := by
  cases v with
  | pStr s =>
    simp only [isDateCoerced, Bool.or_eq_false_iff, decide_eq_false_iff_not] at h
    exact coerceStrL_pass k (.pStr s) s.toList h.1 h.2
  | pNum n => rfl
  | pBool b => rfl
  | pNull => rfl
  | pOut ty => rfl
  | pDictOther => rfl

/-- On a non-OUT head entry, the binder coerces the head and then binds the
rest, propagating the first error. -/
theorem prepare_cons_eq (k : String) (v : ParamValue) (rest : ParamsList)
    (hv : isOutDescriptor v = false) :
    prepare_proc_params ((k, v) :: rest) =
      (match coerce_param k v with
       | .error e => .error e
       | .ok b =>
         match prepare_proc_params rest with
         | .error e => .error e
         | .ok (pp, outs) => .ok (b :: pp, outs)) := by
  cases v
  case pOut ty => simp [isOutDescriptor] at hv
  all_goals rfl

/-- C2: a parameter whose value is a string exactly matching
`\d{4}-\d{2}-\d{2}` is converted to the date obtained by parsing with
`%Y-%m-%d` when the digit groups form a valid calendar date; otherwise the
binder raises a `ValidationError` naming the offending parameter, and
binding a mapping that contains such an entry fails with that error. -/
theorem c2_date_thm (k s : String) (y m d : Nat) (rest : ParamsList)
    (hp : specParse10 s = some (y, m, d)) :
    (validDate y m d = true → coerce_param k (.pStr s) = .ok (.date y m d)) ∧
    (validDate y m d = false →
      coerce_param k (.pStr s) = .error (.validationError k (dateConvMsg k)) ∧
      prepare_proc_params ((k, .pStr s) :: rest) =
        .error (.validationError k (dateConvMsg k))) := by
  have hbase := coerceStr10_spec k (.pStr s) s.toList y m d hp
  refine ⟨hbase.1, fun hv => ?_⟩
  have hc : coerce_param k (.pStr s) = .error (.validationError k (dateConvMsg k)) :=
    hbase.2 hv
  refine ⟨hc, ?_⟩
  rw [prepare_cons_eq k (.pStr s) rest rfl, hc]

/-- Witness for C2: `2024-05-06` converts to the 6th of May 2024; the
regex-matching but invalid `2024-13-40` raises the `ValidationError` naming
its parameter, and binding fails. -/
theorem c2_date_witness :
    specParse10 "2024-05-06" = some (2024, 5, 6) ∧
    validDate 2024 5 6 = true ∧
    coerce_param "d1" (.pStr "2024-05-06") = .ok (.date 2024 5 6) ∧
    specParse10 "2024-13-40" = some (2024, 13, 40) ∧
    validDate 2024 13 40 = false ∧
    prepare_proc_params [("d2", .pStr "2024-13-40")] =
      .error (.validationError "d2" (dateConvMsg "d2")) := by
  refine ⟨by decide, by decide, ?_, by decide, by decide, ?_⟩
  · exact (c2_date_thm "d1" "2024-05-06" 2024 5 6 [] (by decide)).1 (by decide)
  · exact ((c2_date_thm "d2" "2024-13-40" 2024 13 40 [] (by decide)).2 (by decide)).2

/-- C3 counterexample: `ab-cd-efgh` matches neither
`\d{4}-\d{2}-\d{2}` nor the date-time pattern, yet the binder does not pass
it through unchanged — it raises a `ValidationError`, because the code's
gate (two hyphens and length 10) is wider than the digit pattern. -/
theorem c3_counterexample :
    specParse10 "ab-cd-efgh" = none ∧
    specParse19 "ab-cd-efgh" = none ∧
    coerce_param "p" (.pStr "ab-cd-efgh") =
      .error (.validationError "p" (dateConvMsg "p")) :=
  ⟨by decide, by decide, by rfl⟩

/-- C3 as amended: a string outside both shape gates (exactly two hyphens
and length 10; exactly two hyphens, two colons and length 19) is passed
through unchanged, and a string exactly matching
`\d{4}-\d{2}-\d{2} \d{2}:\d{2}:\d{2}` whose digit groups form a valid
calendar date and time of day is converted to the corresponding
date-time. -/
theorem c3_passthrough_thm (k s : String) (y mo d hh mi ss : Nat) :
    (¬(countCP s.toList 45 = 2 ∧ s.toList.length = 10) →
     ¬(countCP s.toList 45 = 2 ∧ countCP s.toList 58 = 2 ∧ s.toList.length = 19) →
      coerce_param k (.pStr s) = .ok (.value (.pStr s))) ∧
    (specParse19 s = some (y, mo, d, hh, mi, ss) → validDate y mo d = true →
      validTime hh mi ss = true →
      coerce_param k (.pStr s) = .ok (.datetime y mo d hh mi ss)) := by
  constructor
  · intro h1 h2
    exact coerceStrL_pass k (.pStr s) s.toList h1 h2
  · intro hp hvd hvt
    exact coerceStr19_ok k (.pStr s) s.toList y mo d hh mi ss hp hvd hvt

/-- Witness for the amended C3: a date-like string with three hyphens and a
plain word pass through unchanged; a valid date-time string converts. -/
theorem c3_passthrough_witness :
    coerce_param "q1" (.pStr "2024-05-06-07") = .ok (.value (.pStr "2024-05-06-07")) ∧
    coerce_param "q2" (.pStr "hello") = .ok (.value (.pStr "hello")) ∧
    coerce_param "q3" (.pStr "2024-05-06 07:08:09") = .ok (.datetime 2024 5 6 7 8 9) := by
  refine ⟨?_, ?_, ?_⟩
  · exact (c3_passthrough_thm "q1" "2024-05-06-07" 0 0 0 0 0 0).1 (by decide) (by decide)
  · exact (c3_passthrough_thm "q2" "hello" 0 0 0 0 0 0).1 (by decide) (by decide)
  · exact (c3_passthrough_thm "q3" "2024-05-06 07:08:09" 2024 5 6 7 8 9).2
      (by decide) (by decide) (by decide)

/-- C4 counterexample: a mapping with no OUT descriptors on which `bind`
does not return an output list at all — it raises a `ValidationError`,
because a non-date string satisfying the shape gate fails coercion. -/
theorem c4_counterexample :
    ([("q", ParamValue.pStr "ab-cd-efgh")].all (fun p => !isOutDescriptor p.2)) = true ∧
    prepare_proc_params [("q", .pStr "ab-cd-efgh")] =
      .error (.validationError "q" (dateConvMsg "q")) :=
  ⟨by decide, by rfl⟩

/-- C4 as amended: for every parameter mapping containing no OUT descriptors
on which binding succeeds, the output list's length equals the mapping's
size, its elements correspond position by position to the mapping's entries
in iteration order, and every entry outside the date-coercion gates binds to
the identical value supplied. -/
theorem c4_bind_thm (params : ParamsList) (pp : List BoundParam)
    (outs : List (String × String))
    (hok : prepare_proc_params params = .ok (pp, outs))
    (hnoOut : params.all (fun p => !isOutDescriptor p.2) = true) :
    pp.length = params.length ∧ outs = [] ∧
    List.Forall₂ (fun (b : BoundParam) (p : String × ParamValue) =>
      isDateCoerced p.2 = true ∨ b = .value p.2) pp params := by
  induction params generalizing pp outs with
  | nil =>
    simp only [prepare_proc_params, Except.ok.injEq, Prod.mk.injEq] at hok
    obtain ⟨h1, h2⟩ := hok
    subst h1; subst h2
    exact ⟨rfl, rfl, List.Forall₂.nil⟩
  | cons head rest ih =>
    obtain ⟨k, v⟩ := head
    simp only [List.all_cons, Bool.and_eq_true, Bool.not_eq_eq_eq_not, Bool.not_true] at hnoOut
    obtain ⟨hh, ht⟩ := hnoOut
    rw [prepare_cons_eq k v rest hh] at hok
    cases hc : coerce_param k v with
    | error e => rw [hc] at hok; exact Except.noConfusion hok
    | ok b =>
      rw [hc] at hok
      cases hr : prepare_proc_params rest with
      | error e => rw [hr] at hok; exact Except.noConfusion hok
      | ok pr =>
        obtain ⟨pp2, outs2⟩ := pr
        rw [hr] at hok
        simp only [Except.ok.injEq, Prod.mk.injEq] at hok
        obtain ⟨h1, h2⟩ := hok
        subst h1; subst h2
        obtain ⟨hlen, houts, hfa⟩ := ih pp2 outs2 hr (by
          simpa [Bool.not_eq_eq_eq_not, Bool.not_true] using ht)
        refine ⟨by simpa using hlen, houts, List.Forall₂.cons ?_ hfa⟩
        by_cases hdc : isDateCoerced v = true
        · exact Or.inl hdc
        · right
          have hpass := coerce_param_pass k v (by simpa using hdc)
          rw [hc] at hpass
          exact (Except.ok.injEq _ _).mp hpass

/-- Every entry of the column-type lookup table carries one of the four
semantic types and repeats its own key as the native type name. -/
theorem column_type_mapping_entries :
    ∀ p ∈ column_type_mapping,
      (p.2.1 = "string" ∨ p.2.1 = "number" ∨ p.2.1 = "date" ∨ p.2.1 = "boolean") ∧
      p.2.2 = p.1 := by decide

/-- C5 counterexample: the lookup maps `DB_TYPE_VARCHAR` to the two-element
list `['string', 'DB_TYPE_VARCHAR']`, which is not one of the four bare
semantic types the claim names. -/
theorem c5_counterexample :
    get_column_type "DB_TYPE_VARCHAR" = .pairVal "string" "DB_TYPE_VARCHAR" ∧
    get_column_type "DB_TYPE_VARCHAR" ≠ .strVal "string" ∧
    get_column_type "DB_TYPE_VARCHAR" ≠ .strVal "number" ∧
    get_column_type "DB_TYPE_VARCHAR" ≠ .strVal "date" ∧
    get_column_type "DB_TYPE_VARCHAR" ≠ .strVal "boolean" :=
  ⟨by rfl, by decide, by decide, by decide, by decide⟩

/-- C5 as amended: the fixed total lookup maps every listed native type to
the pair `[semantic, native]` whose first element is exactly one of
`{string, number, date, boolean}`, and every unlisted native type to the
bare default `'string'`; projecting a two-column, two-row result with
distinct column names yields a columns mapping keyed by exactly those two
names, in order, and the two rows unchanged in fetch order. -/
theorem c5_projection_thm (native n1 n2 t1 t2 : String) (r1 r2 : List Cell) :
    ((∃ sem, get_column_type native = .pairVal sem native ∧
       (sem = "string" ∨ sem = "number" ∨ sem = "date" ∨ sem = "boolean")) ∨
      get_column_type native = .strVal "string") ∧
    (n1 ≠ n2 →
      dtv_execute_query ⟨some [(n1, t1), (n2, t2)], [r1, r2]⟩ =
        ⟨⟨[(n1, get_column_type t1), (n2, get_column_type t2)], [r1, r2]⟩, false⟩) := by
  constructor
  · rcases hf : column_type_mapping.find? (fun p => p.1 == native) with _ | p
    · right
      simp only [get_column_type, hf]
    · left
      have hmem := List.mem_of_find?_eq_some hf
      have hpred := List.find?_some hf
      have hkey : p.1 = native := by simpa using hpred
      have hprop := column_type_mapping_entries p hmem
      refine ⟨p.2.1, ?_, hprop.1⟩
      simp only [get_column_type, hf]
      rw [hprop.2, hkey]
  · intro hne
    unfold dtv_execute_query project_table
    simp [pyDict, pyDictInsert, hne]

/-- Witness for the amended C5: a listed native type, an unlisted one, and a
concrete two-by-two projection. -/
theorem c5_projection_witness :
    get_column_type "DB_TYPE_NUMBER" = .pairVal "number" "DB_TYPE_NUMBER" ∧
    get_column_type "SOME_UNKNOWN" = .strVal "string" ∧
    dtv_execute_query ⟨some [("A", "DB_TYPE_NUMBER"), ("B", "DB_TYPE_VARCHAR")],
        [[.cInt 1, .cStr "x"], [.cInt 2, .cStr "y"]]⟩ =
      ⟨⟨[("A", .pairVal "number" "DB_TYPE_NUMBER"), ("B", .pairVal "string" "DB_TYPE_VARCHAR")],
        [[.cInt 1, .cStr "x"], [.cInt 2, .cStr "y"]]⟩, false⟩ := by
  refine ⟨by rfl, by rfl, ?_⟩
  have h := (c5_projection_thm "DB_TYPE_NUMBER" "A" "B" "DB_TYPE_NUMBER" "DB_TYPE_VARCHAR"
    [.cInt 1, .cStr "x"] [.cInt 2, .cStr "y"]).2 (by decide)
  rw [h]
  rfl

/-- What the table-oriented endpoint is expected to produce for one OUT
variable: the table-mode projection for a cursor, the scalar otherwise. -/
def dtvOutSpec : ExecutedOut → ProcOutVal
  | .cursorVar desc rows => .table (project_table desc rows)
  | .scalarVar _ c => .scalar c

/-- What the row-list endpoint is expected to produce for one OUT variable:
per-row column-to-value dicts for a cursor, the scalar otherwise. -/
def qvOutSpec : ExecutedOut → ProcOutVal
  | .cursorVar desc rows =>
    .rowDicts (rows.map (fun row => pyDict ((desc.map Prod.fst).zip row)))
  | .scalarVar _ c => .scalar c

/-- C6 counterexample: on the same cursor-typed OUT variable, `QueryView`
produces a list of row dicts, not the nested `{columns, rows}` table the
claim asserts for every procedure call; `DataTableView` produces the
table. -/
theorem c6_counterexample :
    qv_get_proc_output [("rc", .cursorVar [("ID", "DB_TYPE_NUMBER")] [[.cInt 1]])] =
      [("rc", .rowDicts [[("ID", .cInt 1)]])] ∧
    dtv_get_proc_output [("rc", .cursorVar [("ID", "DB_TYPE_NUMBER")] [[.cInt 1]])] =
      [("rc", .table ⟨[("ID", .pairVal "number" "DB_TYPE_NUMBER")], [[.cInt 1]]⟩)] ∧
    (ProcOutVal.rowDicts [[("ID", Cell.cInt 1)]] ≠
      .table ⟨[("ID", .pairVal "number" "DB_TYPE_NUMBER")], [[.cInt 1]]⟩) :=
  ⟨by rfl, by rfl, by decide⟩

/-- C6 as amended: both output extractors key their result by the original
parameter names, preserving the insertion order in which the OUT parameters
were bound; each non-cursor variable yields its scalar value directly; a
cursor variable is projected in the endpoint's own mode — the table-mode
`{columns, rows}` projection in `DataTableView`, per-row column-to-value
dicts in `QueryView`. -/
theorem c6_output_thm (outs : List (String × ExecutedOut)) :
    (dtv_get_proc_output outs).map Prod.fst = outs.map Prod.fst ∧
    (qv_get_proc_output outs).map Prod.fst = outs.map Prod.fst ∧
    List.Forall₂ (fun (o : String × ProcOutVal) (i : String × ExecutedOut) =>
      o.2 = dtvOutSpec i.2) (dtv_get_proc_output outs) outs ∧
    List.Forall₂ (fun (o : String × ProcOutVal) (i : String × ExecutedOut) =>
      o.2 = qvOutSpec i.2) (qv_get_proc_output outs) outs := by
  refine ⟨?_, ?_, ?_, ?_⟩
  · simp [dtv_get_proc_output]
  · simp [qv_get_proc_output]
  · induction outs with
    | nil => exact List.Forall₂.nil
    | cons p rest ih =>
      obtain ⟨kk, oo⟩ := p
      exact List.Forall₂.cons (by cases oo <;> rfl) ih
  · induction outs with
    | nil => exact List.Forall₂.nil
    | cons p rest ih =>
      obtain ⟨kk, oo⟩ := p
      exact List.Forall₂.cons (by cases oo <;> rfl) ih

/-- Once the body checks of `post` have passed — a dict body with a
non-empty `sql` — the response is derived from the guarded block's
outcome. -/
theorem post_dict_some (s : String) (pOpt : Option ParamsList)
    (run : String → ParamsList → ExecOutcome) (hs : s ≠ "") :
    post (.dict (some s) pOpt) run = responseOf (run s (pOpt.getD [])) := by
  show (if s = "" then HttpResponse.errorResp msgNoSql
    else responseOf (run s (pOpt.getD []))) = responseOf (run s (pOpt.getD []))
  rw [if_neg hs]

/-- C8: any error raised inside the guarded execution block is caught and
converted to an `{error: message}` response — a driver-reported error to the
fixed generic message with its detail suppressed, any other exception
(`ValidationError` included, as the final conjunct shows on the concrete
pipeline) to its own message; the malformed-body and missing-SQL rejections
return their specific messages. -/
theorem c8_error_thm (s : String) (pOpt : Option ParamsList) (dtl m k : String)
    (run : String → ParamsList → ExecOutcome) (db : DbModel) (hs : s ≠ "") :
    post (.dict (some s) pOpt) (fun _ _ => .dbError dtl) = .errorResp msgDbGeneric ∧
    post (.dict (some s) pOpt) (fun _ _ => .exc m) = .errorResp m ∧
    post .notDict run = .errorResp msgBadFormat ∧
    post (.dict none pOpt) run = .errorResp msgNoSql ∧
    post (.dict (some "CALL f") (some [(k, .pStr "ab-cd-efgh")])) (dtv_run db) =
      .errorResp (dateConvMsg k) := by
  refine ⟨?_, ?_, rfl, rfl, ?_⟩
  · rw [post_dict_some s pOpt _ hs]
    rfl
  · rw [post_dict_some s pOpt _ hs]
    rfl
  · rfl

/-- Witness for C8: a driver error is masked, another exception keeps its
message, a binder `ValidationError` surfaces with its own message. -/
theorem c8_error_witness :
    post (.dict (some "SELECT 1") none) (fun _ _ => .dbError "ORA-00942") =
      .errorResp msgDbGeneric ∧
    post (.dict (some "SELECT 1") none) (fun _ _ => .exc "boom") = .errorResp "boom" ∧
    post (.dict (some "CALL f") (some [("x", .pStr "ab-cd-efgh")])) (dtv_run db0) =
      .errorResp (dateConvMsg "x") := by
  have h := c8_error_thm "SELECT 1" none "ORA-00942" "boom" "x"
    (fun _ _ => .ok (.queryResult ⟨[], []⟩)) db0 (by decide)
  exact ⟨h.1, h.2.1, h.2.2.2.2⟩

/-- C9 counterexample: an OUT descriptor naming the unresolvable type
`NO_SUCH_TYPE` raises `AttributeError` inside the guarded execution of the
request and is returned through the generic exception path — a runtime
failure during request execution, not a distinct bind-time configuration
rejection. -/
theorem c9_counterexample :
    prepare_proc_params [("p", .pOut "NO_SUCH_TYPE")] =
      .error (.attributeError "NO_SUCH_TYPE") ∧
    post (.dict (some "CALL my_proc") (some [("p", .pOut "NO_SUCH_TYPE")])) (dtv_run db0) =
      .errorResp (pyErrorMessage (.attributeError "NO_SUCH_TYPE")) ∧
    pyErrorMessage (.attributeError "NO_SUCH_TYPE") =
      "module \x27oracledb\x27 has no attribute \x27NO_SUCH_TYPE\x27" :=
  ⟨by rfl, by rfl, by rfl⟩

/-- C9 as amended: the named OUT type is resolved by dynamic attribute
lookup on the driver module while binding; an unresolvable name makes the
bind — and hence the request — fail with an `AttributeError` handled by the
generic exception path, while a resolvable name allocates the OUT variable
and records it under the parameter's name. -/
theorem c9_resolution_thm (k ty : String) (rest : ParamsList) (db : DbModel) :
    (oracledbAttrs.contains ty = false →
      prepare_proc_params ((k, .pOut ty) :: rest) = .error (.attributeError ty) ∧
      post (.dict (some "CALL f") (some [(k, .pOut ty)])) (dtv_run db) =
        .errorResp (pyErrorMessage (.attributeError ty))) ∧
    (oracledbAttrs.contains ty = true →
      prepare_proc_params ((k, .pOut ty) :: rest) =
        (match prepare_proc_params rest with
         | .error e => .error e
         | .ok (pp, outs) => .ok (.outVar ty :: pp, (k, ty) :: outs))) := by
  constructor
  · intro hno
    have hcn : ¬ (oracledbAttrs.contains ty = true) := by
      rw [hno]
      simp
    have hg : getattrOracledb ty = .error (.attributeError ty) := by
      unfold getattrOracledb
      rw [if_neg hcn]
    have h1 : prepare_proc_params ((k, ParamValue.pOut ty) :: rest) =
        .error (.attributeError ty) := by
      simp only [prepare_proc_params]
      rw [hg]
    have h2 : prepare_proc_params [(k, ParamValue.pOut ty)] =
        .error (.attributeError ty) := by
      simp only [prepare_proc_params]
      rw [hg]
    refine ⟨h1, ?_⟩
    rw [post_dict_some _ _ _ (by decide)]
    have hrun : dtv_run db "CALL f" [(k, ParamValue.pOut ty)] =
        .exc (pyErrorMessage (.attributeError ty)) := by
      unfold dtv_run dtv_execute_sql
      rw [if_pos (by decide)]
      unfold dtv_call_procedure
      rw [h2]
    rw [show (some [(k, ParamValue.pOut ty)]).getD ([] : ParamsList) =
      [(k, ParamValue.pOut ty)] from rfl, hrun]
    rfl
  · intro hyes
    have hg : getattrOracledb ty = .ok ty := by
      unfold getattrOracledb
      rw [if_pos hyes]
    simp only [prepare_proc_params]
    rw [hg]

/-- Witness for the amended C9: an unknown type name fails the bind; the
known `DB_TYPE_NUMBER` allocates and records an OUT variable. -/
theorem c9_resolution_witness :
    prepare_proc_params [("p2", .pOut "NO_SUCH")] = .error (.attributeError "NO_SUCH") ∧
    prepare_proc_params [("p3", .pOut "DB_TYPE_NUMBER")] =
      .ok ([.outVar "DB_TYPE_NUMBER"], [("p3", "DB_TYPE_NUMBER")]) := by
  constructor
  · exact ((c9_resolution_thm "p2" "NO_SUCH" [] db0).1 (by decide)).1
  · have h := (c9_resolution_thm "p3" "DB_TYPE_NUMBER" [] db0).2 (by decide)
    rw [h]
    rfl

/-- C10: a non-dict body and a missing or empty `sql` are the only
`BadRequest` rejections; a dict body with a non-empty `sql` and no `params`
entry is executed with the empty parameter mapping, the response being
derived from the execution outcome. -/
theorem c10_params_default_thm (s : String) (pOpt : Option ParamsList)
    (run : String → ParamsList → ExecOutcome) (hs : s ≠ "") :
    post .notDict run = .errorResp msgBadFormat ∧
    post (.dict none pOpt) run = .errorResp msgNoSql ∧
    post (.dict (some "") pOpt) run = .errorResp msgNoSql ∧
    post (.dict (some s) none) run = responseOf (run s []) := by
  refine ⟨rfl, rfl, rfl, ?_⟩
  rw [post_dict_some s none run hs]
  rfl

/-- Witness for C10: a run function that reports whether it received the
empty parameter mapping confirms the default. -/
theorem c10_params_default_witness :
    post (.dict (some "SELECT 2") none)
      (fun _ p => if p = [] then .exc "empty" else .exc "nonempty") =
      .errorResp "empty" := by
  have h := (c10_params_default_thm "SELECT 2" none
    (fun _ p => if p = [] then .exc "empty" else .exc "nonempty") (by decide)).2.2.2
  rw [h]
  rfl

/-- Witness for the amended C4: a three-entry mapping with no OUT
descriptors binds to a three-element list in iteration order, with the
non-coerced entries passed through identically. -/
theorem c4_bind_witness :
    prepare_proc_params [("a", .pNum 7), ("b", .pStr "2024-05-06"), ("c", .pStr "hello")] =
      .ok ([.value (.pNum 7), .date 2024 5 6, .value (.pStr "hello")], []) ∧
    ([("a", ParamValue.pNum 7), ("b", .pStr "2024-05-06"), ("c", .pStr "hello")].all
      (fun p => !isOutDescriptor p.2)) = true ∧
    [BoundParam.value (.pNum 7), .date 2024 5 6, .value (.pStr "hello")].length =
      [("a", ParamValue.pNum 7), ("b", .pStr "2024-05-06"), ("c", .pStr "hello")].length := by
  refine ⟨by rfl, by decide, ?_⟩
  exact (c4_bind_thm
    [("a", .pNum 7), ("b", .pStr "2024-05-06"), ("c", .pStr "hello")]
    [.value (.pNum 7), .date 2024 5 6, .value (.pStr "hello")] []
    (by rfl) (by decide)).1
